import Mathlib

/-!
Verification of the streaming SHA-3 / SHAKE hashing engine declared in
`lib_cxng/src/cx_sha3.h`.

The repository ships only the public header: five operation declarations
(`cx_sha3_update`, `cx_sha3_final`, `cx_sha3_get_output_size`,
`cx_sha3_validate_context`, `cx_shake_validate_context`).  The header is
embedded literally as a table of C signatures; the behaviour of the five
operations, whose implementation file is not part of the repository, is
modelled from the specification (Keccak permutation core, sponge context,
absorb/squeeze, context validation).  Machine integers are modelled as `Nat`
with explicit reduction modulo `2 ^ 64`; bytes are `Nat` values used modulo
`256`.
-/

/-! ## The Keccak permutation core (spec section 4.1) -/

/-- Modelled from the spec: 64-bit lanes, reduced modulo `2 ^ 64`. -/
def M64 : Nat := 2 ^ 64

/-- Modelled from the spec: 64-bit left rotation of a lane. -/
def rotl64 (x n : Nat) : Nat := ((x <<< n) ||| (x >>> (64 - n))) % M64

/-- Modelled from the spec: 64-bit bitwise complement of a lane. -/
def comp64 (x : Nat) : Nat := x ^^^ (M64 - 1)

/-- Modelled from the spec: the 1600-bit sponge state as 25 independent
64-bit lanes (spec section 3, SpongeState). -/
abbrev KState := List Nat

/-- Lane `i` of the state (lane `(x, y)` sits at index `x + 5 * y`). -/
def lane (s : KState) (i : Nat) : Nat := s.getD i 0

/-- Modelled from the spec: the fixed rho rotation offsets of Keccak-f[1600],
indexed by `x + 5 * y`. -/
def rhoOffsets : List Nat :=
  [0, 1, 62, 28, 27] ++ [36, 44, 6, 55, 20] ++ [3, 10, 43, 25, 39] ++
    [41, 45, 15, 21, 8] ++ [18, 2, 61, 56, 14]

/-- Modelled from the spec: the 24 round constants of Keccak-f[1600]
(the number of rounds is fixed by the algorithm, spec section 4.1). -/
def roundConstants : List Nat :=
  [0x0000000000000001, 0x0000000000008082, 0x800000000000808a, 0x8000000080008000,
   0x000000000000808b, 0x0000000080000001, 0x8000000080008081, 0x8000000000008009,
   0x000000000000008a, 0x0000000000000088, 0x0000000080008009, 0x000000008000000a,
   0x000000008000808b, 0x800000000000008b, 0x8000000000008089, 0x8000000000008003,
   0x8000000000008002, 0x8000000000000080, 0x000000000000800a, 0x800000008000000a,
   0x8000000080008081, 0x8000000000008080, 0x0000000080000001, 0x8000000080008008]

/-- Modelled from the spec: the theta step of the Keccak round function —
each lane is XORed with `d x = c (x - 1) ^^^ rotl (c (x + 1)) 1` where
`c x` is the parity of column `x`. -/
def theta (s : KState) : KState :=
  let c0 := lane s 0 ^^^ lane s 5 ^^^ lane s 10 ^^^ lane s 15 ^^^ lane s 20
  let c1 := lane s 1 ^^^ lane s 6 ^^^ lane s 11 ^^^ lane s 16 ^^^ lane s 21
  let c2 := lane s 2 ^^^ lane s 7 ^^^ lane s 12 ^^^ lane s 17 ^^^ lane s 22
  let c3 := lane s 3 ^^^ lane s 8 ^^^ lane s 13 ^^^ lane s 18 ^^^ lane s 23
  let c4 := lane s 4 ^^^ lane s 9 ^^^ lane s 14 ^^^ lane s 19 ^^^ lane s 24
  let d0 := c4 ^^^ rotl64 c1 1
  let d1 := c0 ^^^ rotl64 c2 1
  let d2 := c1 ^^^ rotl64 c3 1
  let d3 := c2 ^^^ rotl64 c4 1
  let d4 := c3 ^^^ rotl64 c0 1
  (List.range 25).map (fun i =>
    lane s i ^^^
      (if i % 5 == 0 then d0
       else if i % 5 == 1 then d1
       else if i % 5 == 2 then d2
       else if i % 5 == 3 then d3
       else d4))

/-- Modelled from the spec: the combined rho and pi steps of the Keccak
round function. -/
def rhoPi (s : KState) : KState :=
  (List.range 25).map (fun j =>
    let x := j % 5
    let y := j / 5
    let src := (x + 3 * y) % 5 + 5 * x
    rotl64 (lane s src) (rhoOffsets.getD src 0))

/-- Modelled from the spec: the chi step of the Keccak round function. -/
def chi (s : KState) : KState :=
  (List.range 25).map (fun j =>
    let x := j % 5
    let y := j / 5
    lane s j ^^^ (comp64 (lane s ((x + 1) % 5 + 5 * y)) &&& lane s ((x + 2) % 5 + 5 * y)))

/-- Modelled from the spec: the iota step of the Keccak round function. -/
def iota (rc : Nat) (s : KState) : KState :=
  match s with
  | [] => []
  | a :: rest => (a ^^^ rc) :: rest

/-- Modelled from the spec: the full Keccak-f[1600] permutation, the fixed
round sequence applied to the 1600-bit state (spec section 4.1). -/
def keccakF (s : KState) : KState :=
  roundConstants.foldl (fun st rc => iota rc (chi (rhoPi (theta st)))) s

/-! ## Byte-level view of the state -/

/-- Eight bytes, least significant first, assembled into one 64-bit lane. -/
def bytesToLane (bs : List Nat) : Nat :=
  bs.foldr (fun b acc => acc * 256 + b % 256) 0

/-- Modelled from the spec: XOR a rate-sized block of input bytes into the
low-order bytes of the state (spec section 4.2). -/
def xorBlock (s : KState) (block : List Nat) : KState :=
  (List.range 25).map (fun i => lane s i ^^^ bytesToLane ((block.drop (8 * i)).take 8))

/-- The eight bytes of a 64-bit lane, least significant first. -/
def laneBytes (x : Nat) : List Nat :=
  (List.range 8).map (fun k => (x >>> (8 * k)) % 256)

/-- Modelled from the spec: the first `n` bytes of the state, read off the
lanes in order (spec section 4.3, squeeze step). -/
def stateBytes (s : KState) (n : Nat) : List Nat :=
  (((List.range 25).map (fun i => laneBytes (lane s i))).flatten).take n

/-- Modelled from the spec: the zero-initialized sponge state
(spec section 3). -/
def zeroState : KState := List.replicate 25 0

/-! ## Absorb loop, padding, squeeze loop -/

/-- Modelled from the spec: the absorb loop of `update` (spec section 4.2):
while the combined buffer holds at least `rate` bytes, XOR the next `rate`
bytes into the state and apply the permutation; the remainder is returned as
the new partial block.  The final `Nat` argument is fuel bounding the number
of iterations; any fuel of at least `buf.length` gives the loop's result. -/
def absorbLoop (rate : Nat) (st : KState) (buf : List Nat) : Nat → KState × List Nat
  | 0 => (st, buf)
  | fuel + 1 =>
    if rate ≤ buf.length then
      absorbLoop rate (keccakF (xorBlock st (buf.take rate))) (buf.drop rate) fuel
    else (st, buf)

/-- Modelled from the spec: the domain-separation suffix byte prepended to
the pad10*1 padding — bits `01` for SHA3 (`0x06` with the first padding bit)
and `1111` for SHAKE (`0x1F`) (spec section 4.3, steps 1 and 2). -/
def padDS (isShake : Bool) : Nat := if isShake then 0x1F else 0x06

/-- Modelled from the spec: the pending partial block extended with the
domain-separation suffix and multi-rate pad10*1 padding to a full rate-sized
block (spec section 4.3, steps 1 and 2; `pb.length < rate` always holds). -/
def padBlock (rate : Nat) (pb : List Nat) (ds : Nat) : List Nat :=
  let q := rate - pb.length
  if q == 1 then pb ++ [ds ||| 0x80]
  else pb ++ [ds] ++ List.replicate (q - 2) 0 ++ [0x80]

/-- Modelled from the spec: the squeeze loop of `final` (spec section 4.3,
step 4): take `rate` bytes of the state per permutation application until
`outLen` bytes have been produced, truncating the last block.  The final
`Nat` argument is fuel; any fuel of at least `outLen + 1` gives the loop's
result. -/
def squeeze (rate : Nat) (st : KState) (outLen : Nat) : Nat → List Nat
  | 0 => []
  | fuel + 1 =>
    if outLen ≤ rate then (stateBytes st rate).take outLen
    else stateBytes st rate ++ squeeze rate (keccakF st) (outLen - rate) fuel

/-! ## The C interface, embedded from `lib_cxng/src/cx_sha3.h` -/

/-- The C types that occur in the five declarations of `cx_sha3.h`. -/
inductive CType where
  | void
  | cxErr
  | sizeT
  | boolean
  | ptrCtx
  | ptrConstCtx
  | ptrByte
  | ptrConstByte
deriving DecidableEq

/-- A C function declaration: return type and argument types. -/
structure CDecl where
  ret : CType
  args : List CType

/-- `cx_err_t cx_sha3_update(cx_sha3_t *ctx, const uint8_t *data, size_t len);`
(line 8 of `cx_sha3.h`). -/
def cx_sha3_update_decl : CDecl :=
  { ret := CType.cxErr, args := [CType.ptrCtx, CType.ptrConstByte, CType.sizeT] }

/-- `void cx_sha3_final(cx_sha3_t *ctx, uint8_t *digest);`
(line 9 of `cx_sha3.h`). -/
def cx_sha3_final_decl : CDecl :=
  { ret := CType.void, args := [CType.ptrCtx, CType.ptrByte] }

/-- `size_t cx_sha3_get_output_size(const cx_sha3_t *ctx);`
(line 10 of `cx_sha3.h`). -/
def cx_sha3_get_output_size_decl : CDecl :=
  { ret := CType.sizeT, args := [CType.ptrConstCtx] }

/-- `bool cx_sha3_validate_context(const cx_sha3_t *ctx);`
(line 11 of `cx_sha3.h`). -/
def cx_sha3_validate_context_decl : CDecl :=
  { ret := CType.boolean, args := [CType.ptrConstCtx] }

/-- `bool cx_shake_validate_context(const cx_sha3_t *ctx);`
(line 12 of `cx_sha3.h`). -/
def cx_shake_validate_context_decl : CDecl :=
  { ret := CType.boolean, args := [CType.ptrConstCtx] }

/-! ## The sponge context and error codes -/

/-- Modelled from the spec: the error taxonomy of section 7.  `CX_OK` is the
success value of `cx_err_t`; `CX_INVALID_CONTEXT` reports a structural
mismatch found by validation and `CX_INVALID_STATE` an operation called out
of sequence. -/
inductive cx_err_t where
  | CX_OK
  | CX_INVALID_CONTEXT
  | CX_INVALID_STATE
deriving DecidableEq

/-- Modelled from the spec: the algorithm family enum of section 3, with the
underlying C integer as carrier so that unrecognized values are
representable. -/
def FAMILY_SHA3 : Nat := 0

/-- Modelled from the spec: the SHAKE member of the family enum. -/
def FAMILY_SHAKE : Nat := 1

/-- Modelled from the spec: the externally visible sponge context `cx_sha3_t`
(spec section 3).  `partialBlock` carries the buffered bytes; its length is
the `partialBlockLength` field of the spec.  `outputLengthBytes` records the
caller-configured XOF output length for SHAKE contexts (spec sections 3 and
9, open question made explicit). -/
structure cx_sha3_t where
  algorithmFamily : Nat
  digestLengthBits : Nat
  outputLengthBytes : Nat
  rateBytes : Nat
  partialBlock : List Nat
  state : KState
  finalized : Bool

/-- Modelled from the spec: the first check of validation — the family field
holds a recognized enum value (spec section 4.4). -/
def familyRecognized (f : Nat) : Bool :=
  f == FAMILY_SHA3 || f == FAMILY_SHAKE

/-- Modelled from the spec: `digestLengthBits` is one of the sizes legal for
the declared family — 224/256/384/512 for SHA3, 128/256 for SHAKE
(spec section 3). -/
def sizeLegal (f bits : Nat) : Bool :=
  if f == FAMILY_SHA3 then bits == 224 || bits == 256 || bits == 384 || bits == 512
  else if f == FAMILY_SHAKE then bits == 128 || bits == 256
  else false

/-- Modelled from the spec: the rate recomputed from the declared size,
`rate = (1600 - 2 * capacity) / 8` with `capacity = digestLengthBits`
(spec section 3). -/
def rateFor (bits : Nat) : Nat := (1600 - 2 * bits) / 8

/-- Modelled from the spec: `cx_sha3_validate_context` (spec section 4.4) —
checks in order that the family is recognized, the size is legal for the
family, the stored rate equals the recomputed rate, and the partial block is
shorter than the rate; a pure boolean predicate. -/
def cx_sha3_validate_context (ctx : cx_sha3_t) : Bool :=
  familyRecognized ctx.algorithmFamily &&
  sizeLegal ctx.algorithmFamily ctx.digestLengthBits &&
  (ctx.rateBytes == rateFor ctx.digestLengthBits) &&
  decide (ctx.partialBlock.length < ctx.rateBytes)

/-- Modelled from the spec: `cx_shake_validate_context` (spec section 4.4) —
the same checks, additionally requiring the SHAKE family. -/
def cx_shake_validate_context (ctx : cx_sha3_t) : Bool :=
  cx_sha3_validate_context ctx && (ctx.algorithmFamily == FAMILY_SHAKE)

/-- Modelled from the spec: `cx_sha3_get_output_size` (spec section 4.5) —
validates internally and fails fast (returning 0) on a corrupted context;
otherwise the digest length in bytes implied by `digestLengthBits` for
fixed-digest SHA3, and the caller-configured output length for SHAKE. -/
def cx_sha3_get_output_size (ctx : cx_sha3_t) : Nat :=
  if cx_sha3_validate_context ctx then
    if ctx.algorithmFamily == FAMILY_SHAKE then ctx.outputLengthBytes
    else ctx.digestLengthBits / 8
  else 0

/-- Modelled from the spec: `cx_sha3_update` (spec section 4.2) — rejects a
context failing validation with `CX_INVALID_CONTEXT` and a finalized context
with `CX_INVALID_STATE`, otherwise appends `data` to the buffered partial
block and absorbs every full rate-sized block. -/
def cx_sha3_update (ctx : cx_sha3_t) (data : List Nat) : cx_err_t × cx_sha3_t :=
  if !cx_sha3_validate_context ctx then (cx_err_t.CX_INVALID_CONTEXT, ctx)
  else if ctx.finalized then (cx_err_t.CX_INVALID_STATE, ctx)
  else
    let buf := ctx.partialBlock ++ data
    let r := absorbLoop ctx.rateBytes ctx.state buf buf.length
    (cx_err_t.CX_OK, { ctx with state := r.1, partialBlock := r.2 })

/-- Modelled from the spec: the finalize behaviour with its error conditions
(spec sections 4.3 and 7).  On success it returns the mutated context and
the digest buffer with the output bytes written over its front; the header
declares `cx_sha3_final` with a `void` return, so the error value computed
here is not part of the public interface. -/
def cx_sha3_final_result (ctx : cx_sha3_t) (digest : List Nat) :
    Except cx_err_t (cx_sha3_t × List Nat) :=
  if !cx_sha3_validate_context ctx then Except.error cx_err_t.CX_INVALID_CONTEXT
  else if ctx.finalized then Except.error cx_err_t.CX_INVALID_STATE
  else
    let outLen :=
      if ctx.algorithmFamily == FAMILY_SHAKE then ctx.outputLengthBytes
      else ctx.digestLengthBits / 8
    let st := keccakF (xorBlock ctx.state
      (padBlock ctx.rateBytes ctx.partialBlock (padDS (ctx.algorithmFamily == FAMILY_SHAKE))))
    let out := squeeze ctx.rateBytes st outLen (outLen + 1)
    Except.ok ({ ctx with state := st, partialBlock := [], finalized := true },
      out ++ digest.drop outLen)

/-- Modelled from the spec: `cx_sha3_final` as declared in the header —
`void` return, so a failure of the internal checks is not reported to the
caller; every failure path leaves the context and the caller-supplied digest
buffer unchanged (spec section 7). -/
def cx_sha3_final (ctx : cx_sha3_t) (digest : List Nat) : cx_sha3_t × List Nat :=
  match cx_sha3_final_result ctx digest with
  | Except.ok r => r
  | Except.error _ => (ctx, digest)

/-- Modelled from the spec: construction of a fresh context by the caller
(spec section 3, lifecycle) — family and size fixed, rate derived, empty
partial block, zero-initialized state, not finalized. -/
def cx_sha3_init (family bits outLen : Nat) : cx_sha3_t :=
  { algorithmFamily := family, digestLengthBits := bits, outputLengthBytes := outLen,
    rateBytes := rateFor bits, partialBlock := [], state := zeroState, finalized := false }

/-- Modelled from the spec: the static lookup table of the legal
`(family, digestLengthBits, rateBytes)` combinations (spec section 9,
design note on the family/size-to-rate table). -/
def rateTable : List (Nat × Nat × Nat) :=
  [(FAMILY_SHA3, 224, 144), (FAMILY_SHA3, 256, 136), (FAMILY_SHA3, 384, 104),
   (FAMILY_SHA3, 512, 72), (FAMILY_SHAKE, 128, 168), (FAMILY_SHAKE, 256, 136)]

/-- The specification's reading of a structurally consistent context: the
family, size and rate triple is one of the table's legal combinations and
the partial block is shorter than the rate (spec sections 3 and 4.4). -/
def spec_context_ok (ctx : cx_sha3_t) : Prop :=
  (ctx.algorithmFamily, ctx.digestLengthBits, ctx.rateBytes) ∈ rateTable ∧
  ctx.partialBlock.length < ctx.rateBytes

/-! ## Properties of the absorb loop -/

theorem absorbLoop_short (rate : Nat) (st : KState) (buf : List Nat) (fuel : Nat)
    (h : buf.length < rate) : absorbLoop rate st buf fuel = (st, buf) := by
  cases fuel with
  | zero => rfl
  | succ f => simp [absorbLoop, Nat.not_le.mpr h]

theorem absorbLoop_fuel (rate : Nat) (hr : 0 < rate) :
    ∀ f1 f2 (st : KState) (buf : List Nat), buf.length ≤ f1 → buf.length ≤ f2 →
      absorbLoop rate st buf f1 = absorbLoop rate st buf f2 := by
  intro f1
  induction f1 with
  | zero =>
    intro f2 st buf h1 h2
    have hb : buf.length < rate := by omega
    rw [absorbLoop_short _ _ _ _ hb, absorbLoop_short _ _ _ _ hb]
  | succ a ih =>
    intro f2 st buf h1 h2
    by_cases hc : rate ≤ buf.length
    · cases f2 with
      | zero => omega
      | succ b =>
        simp only [absorbLoop, if_pos hc]
        apply ih
        · rw [List.length_drop]; omega
        · rw [List.length_drop]; omega
    · have hb : buf.length < rate := Nat.not_le.mp hc
      rw [absorbLoop_short _ _ _ _ hb, absorbLoop_short _ _ _ _ hb]

theorem absorbLoop_rem_lt (rate : Nat) (hr : 0 < rate) :
    ∀ fuel (st : KState) (buf : List Nat), buf.length ≤ fuel →
      ((absorbLoop rate st buf fuel).2).length < rate := by
  intro fuel
  induction fuel with
  | zero =>
    intro st buf h
    simp only [absorbLoop]
    omega
  | succ a ih =>
    intro st buf h
    by_cases hc : rate ≤ buf.length
    · simp only [absorbLoop, if_pos hc]
      apply ih
      rw [List.length_drop]; omega
    · simp only [absorbLoop, if_neg hc]
      omega

theorem absorbLoop_append (rate : Nat) (hr : 0 < rate) :
    ∀ fuel (st : KState) (a b : List Nat), a.length ≤ fuel →
      absorbLoop rate st (a ++ b) ((a ++ b).length) =
        absorbLoop rate (absorbLoop rate st a a.length).1
          ((absorbLoop rate st a a.length).2 ++ b)
          ((absorbLoop rate st a a.length).2 ++ b).length := by
  intro fuel
  induction fuel with
  | zero =>
    intro st a b h
    have h0 : a = [] := List.length_eq_zero.mp (Nat.le_zero.mp h)
    subst h0
    simp [absorbLoop]
  | succ n ih =>
    intro st a b h
    by_cases ha : a.length < rate
    · rw [absorbLoop_short rate st a a.length ha]
    · have ha' : rate ≤ a.length := Nat.not_lt.mp ha
      have hab : rate ≤ (a ++ b).length := by rw [List.length_append]; omega
      have hL : (a ++ b).length = ((a ++ b).length - 1) + 1 := by
        rw [List.length_append]; omega
      rw [hL]
      simp only [absorbLoop, if_pos hab]
      rw [List.take_append_eq_append_take, Nat.sub_eq_zero_of_le ha', List.take_zero,
        List.append_nil, List.drop_append_eq_append_drop, Nat.sub_eq_zero_of_le ha',
        List.drop_zero]
      rw [absorbLoop_fuel rate hr _ ((a.drop rate ++ b).length) _ _
        (by simp; omega) (le_refl _)]
      rw [ih (keccakF (xorBlock st (a.take rate))) (a.drop rate) b
        (by rw [List.length_drop]; omega)]
      have hA : a.length = (a.length - 1) + 1 := by omega
      rw [hA]
      simp only [absorbLoop, if_pos ha']
      rw [absorbLoop_fuel rate hr (a.length - 1) ((a.drop rate).length) _ _
        (by rw [List.length_drop]; omega) (le_refl _)]

/-! ## Properties of validation -/

theorem validate_fields (ctx : cx_sha3_t) (hv : cx_sha3_validate_context ctx = true) :
    familyRecognized ctx.algorithmFamily = true ∧
    sizeLegal ctx.algorithmFamily ctx.digestLengthBits = true ∧
    ctx.rateBytes = rateFor ctx.digestLengthBits ∧
    ctx.partialBlock.length < ctx.rateBytes := by
  simp only [cx_sha3_validate_context, Bool.and_eq_true, beq_iff_eq,
    decide_eq_true_eq] at hv
  exact ⟨hv.1.1.1, hv.1.1.2, hv.1.2, hv.2⟩

theorem validate_rate_pos (ctx : cx_sha3_t) (hv : cx_sha3_validate_context ctx = true) :
    0 < ctx.rateBytes :=
  Nat.lt_of_le_of_lt (Nat.zero_le _) (validate_fields ctx hv).2.2.2

theorem validate_set (ctx : cx_sha3_t) (st : KState) (pb : List Nat) :
    cx_sha3_validate_context { ctx with state := st, partialBlock := pb } =
      (familyRecognized ctx.algorithmFamily &&
       sizeLegal ctx.algorithmFamily ctx.digestLengthBits &&
       (ctx.rateBytes == rateFor ctx.digestLengthBits) &&
       decide (pb.length < ctx.rateBytes)) := rfl

theorem validate_set_final (ctx : cx_sha3_t) (st : KState) :
    cx_sha3_validate_context { ctx with state := st, partialBlock := [], finalized := true } =
      (familyRecognized ctx.algorithmFamily &&
       sizeLegal ctx.algorithmFamily ctx.digestLengthBits &&
       (ctx.rateBytes == rateFor ctx.digestLengthBits) &&
       decide (0 < ctx.rateBytes)) := rfl

theorem validate_iff_table (ctx : cx_sha3_t) :
    cx_sha3_validate_context ctx = true ↔ spec_context_ok ctx := by
  obtain ⟨f, bits, oL, r, pb, st, fin⟩ := ctx
  simp only [cx_sha3_validate_context, spec_context_ok, familyRecognized, sizeLegal,
    FAMILY_SHA3, FAMILY_SHAKE, rateTable, rateFor, Bool.and_eq_true, Bool.or_eq_true,
    beq_iff_eq, decide_eq_true_eq, List.mem_cons, List.not_mem_nil, or_false,
    Prod.mk.injEq]
  constructor
  · rintro ⟨⟨⟨hf, hs⟩, hr⟩, hp⟩
    refine ⟨?_, hp⟩
    rcases hf with rfl | rfl
    · simp at hs
      rcases hs with ((rfl | rfl) | rfl) | rfl <;> subst hr <;> norm_num
    · simp at hs
      rcases hs with rfl | rfl <;> subst hr <;> norm_num
  · rintro ⟨hm, hp⟩
    refine ⟨?_, hp⟩
    rcases hm with hm | hm | hm | hm | hm | hm <;> obtain ⟨rfl, rfl, rfl⟩ := hm <;> norm_num

theorem table_rate_mem (f b r : Nat) (h : (f, b, r) ∈ rateTable) :
    r ∈ [72, 104, 136, 144, 168] := by
  simp [rateTable, FAMILY_SHA3, FAMILY_SHAKE, Prod.mk.injEq] at h
  rcases h with h | h | h | h | h | h <;> obtain ⟨_, _, rfl⟩ := h <;> simp

/-! ## Properties of update -/

theorem cx_sha3_update_snd (ctx : cx_sha3_t) (data : List Nat)
    (hv : cx_sha3_validate_context ctx = true) (hf : ctx.finalized = false) :
    (cx_sha3_update ctx data).2 =
      { ctx with
        state := (absorbLoop ctx.rateBytes ctx.state (ctx.partialBlock ++ data)
          (ctx.partialBlock ++ data).length).1,
        partialBlock := (absorbLoop ctx.rateBytes ctx.state (ctx.partialBlock ++ data)
          (ctx.partialBlock ++ data).length).2 } := by
  simp [cx_sha3_update, hv, hf]

theorem cx_sha3_update_preserves (ctx : cx_sha3_t) (data : List Nat)
    (hv : cx_sha3_validate_context ctx = true) (hf : ctx.finalized = false) :
    cx_sha3_validate_context (cx_sha3_update ctx data).2 = true ∧
    ((cx_sha3_update ctx data).2).finalized = false := by
  obtain ⟨h1, h2, h3, h4⟩ := validate_fields ctx hv
  have hr : 0 < ctx.rateBytes := validate_rate_pos ctx hv
  rw [cx_sha3_update_snd ctx data hv hf]
  refine ⟨?_, hf⟩
  rw [validate_set]
  have hrem := absorbLoop_rem_lt ctx.rateBytes hr ((ctx.partialBlock ++ data).length)
    ctx.state (ctx.partialBlock ++ data) (le_refl _)
  rw [h3] at hrem
  simp only [List.length_append] at hrem
  simp [h1, h2, h3, hrem]

theorem cx_sha3_update_append (ctx : cx_sha3_t) (a b : List Nat)
    (hv : cx_sha3_validate_context ctx = true) (hf : ctx.finalized = false) :
    (cx_sha3_update (cx_sha3_update ctx a).2 b).2 = (cx_sha3_update ctx (a ++ b)).2 := by
  obtain ⟨hv1, hf1⟩ := cx_sha3_update_preserves ctx a hv hf
  have hr : 0 < ctx.rateBytes := validate_rate_pos ctx hv
  rw [cx_sha3_update_snd _ b hv1 hf1, cx_sha3_update_snd ctx a hv hf,
    cx_sha3_update_snd ctx (a ++ b) hv hf]
  dsimp only
  rw [← List.append_assoc]
  rw [absorbLoop_append ctx.rateBytes hr ((ctx.partialBlock ++ a).length) ctx.state
    (ctx.partialBlock ++ a) b (le_refl _)]

theorem cx_sha3_update_nil (ctx : cx_sha3_t)
    (hv : cx_sha3_validate_context ctx = true) (hf : ctx.finalized = false) :
    (cx_sha3_update ctx []).2 = ctx := by
  rw [cx_sha3_update_snd ctx [] hv hf, List.append_nil,
    absorbLoop_short _ _ _ _ (validate_fields ctx hv).2.2.2]

theorem cx_sha3_update_foldl (chunks : List (List Nat)) :
    ∀ ctx : cx_sha3_t, cx_sha3_validate_context ctx = true → ctx.finalized = false →
      chunks.foldl (fun c d => (cx_sha3_update c d).2) ctx =
        (cx_sha3_update ctx chunks.flatten).2 := by
  induction chunks with
  | nil =>
    intro ctx hv hf
    simp only [List.foldl_nil, List.flatten_nil]
    exact (cx_sha3_update_nil ctx hv hf).symm
  | cons c cs ih =>
    intro ctx hv hf
    obtain ⟨hv1, hf1⟩ := cx_sha3_update_preserves ctx c hv hf
    rw [List.foldl_cons, ih _ hv1 hf1, cx_sha3_update_append ctx c cs.flatten hv hf,
      List.flatten_cons]

/-! ## Properties of finalize and squeeze -/

theorem cx_sha3_final_ok (ctx : cx_sha3_t) (digest : List Nat)
    (hv : cx_sha3_validate_context ctx = true) (hf : ctx.finalized = false) :
    cx_sha3_final ctx digest =
      ({ ctx with
          state := keccakF (xorBlock ctx.state (padBlock ctx.rateBytes ctx.partialBlock
            (padDS (ctx.algorithmFamily == FAMILY_SHAKE)))),
          partialBlock := [], finalized := true },
        squeeze ctx.rateBytes
            (keccakF (xorBlock ctx.state (padBlock ctx.rateBytes ctx.partialBlock
              (padDS (ctx.algorithmFamily == FAMILY_SHAKE)))))
            (if ctx.algorithmFamily == FAMILY_SHAKE then ctx.outputLengthBytes
              else ctx.digestLengthBits / 8)
            ((if ctx.algorithmFamily == FAMILY_SHAKE then ctx.outputLengthBytes
              else ctx.digestLengthBits / 8) + 1) ++
          digest.drop (if ctx.algorithmFamily == FAMILY_SHAKE then ctx.outputLengthBytes
            else ctx.digestLengthBits / 8)) := by
  simp [cx_sha3_final, cx_sha3_final_result, hv, hf]

theorem stateBytes_length (s : KState) (n : Nat) (h : n ≤ 200) :
    (stateBytes s n).length = n := by
  have hfl : (((List.range 25).map (fun i => laneBytes (lane s i))).flatten).length = 200 := by
    rw [List.length_flatten, List.map_map]
    have : (List.length ∘ fun i => laneBytes (lane s i)) = fun _ => 8 := by
      funext i
      simp [laneBytes]
    rw [this, List.map_const', List.sum_replicate, List.length_range, smul_eq_mul]
  rw [stateBytes, List.length_take, hfl]
  omega

theorem squeeze_take (rate : Nat) (hr : 0 < rate) (hr2 : rate ≤ 200) :
    ∀ fm (st : KState) (N M fn : Nat), N ≤ M → M + 1 ≤ fm → N + 1 ≤ fn →
      (squeeze rate st M fm).take N = squeeze rate st N fn := by
  intro fm
  induction fm with
  | zero => intro st N M fn h1 h2 h3; omega
  | succ m ih =>
    intro st N M fn h1 h2 h3
    obtain ⟨n, rfl⟩ : ∃ n, fn = n + 1 := ⟨fn - 1, by omega⟩
    by_cases hM : M ≤ rate
    · have hN : N ≤ rate := le_trans h1 hM
      simp only [squeeze, if_pos hM, if_pos hN]
      rw [List.take_take]
      congr 1
      omega
    · simp only [squeeze, if_neg hM]
      by_cases hN : N ≤ rate
      · simp only [if_pos hN]
        rw [List.take_append_eq_append_take, stateBytes_length st rate hr2,
          Nat.sub_eq_zero_of_le hN, List.take_zero, List.append_nil]
      · simp only [if_neg hN]
        rw [List.take_append_eq_append_take, stateBytes_length st rate hr2,
          List.take_of_length_le (by rw [stateBytes_length st rate hr2]; omega)]
        congr 1
        exact ih (keccakF st) (N - rate) (M - rate) n (by omega) (by omega) (by omega)

theorem shake_digest_eq (bits L : Nat) (data : List Nat)
    (hpos : 0 < rateFor bits) (hsz : sizeLegal FAMILY_SHAKE bits = true) :
    (cx_sha3_final ((cx_sha3_update (cx_sha3_init FAMILY_SHAKE bits L) data).2)
        (List.replicate L 0)).2 =
      squeeze (rateFor bits)
        (keccakF (xorBlock (absorbLoop (rateFor bits) zeroState data data.length).1
          (padBlock (rateFor bits) (absorbLoop (rateFor bits) zeroState data data.length).2
            (padDS true))))
        L (L + 1) := by
  have hfam : familyRecognized FAMILY_SHAKE = true := rfl
  have hv : cx_sha3_validate_context (cx_sha3_init FAMILY_SHAKE bits L) = true := by
    simp [cx_sha3_validate_context, cx_sha3_init, hfam, hsz, hpos]
  have hrem := absorbLoop_rem_lt (rateFor bits) hpos data.length zeroState data (le_refl _)
  rw [cx_sha3_update_snd _ data hv rfl]
  simp only [cx_sha3_init, List.nil_append]
  have hv1 : cx_sha3_validate_context
      { algorithmFamily := FAMILY_SHAKE, digestLengthBits := bits, outputLengthBytes := L,
        rateBytes := rateFor bits,
        partialBlock := (absorbLoop (rateFor bits) zeroState data data.length).2,
        state := (absorbLoop (rateFor bits) zeroState data data.length).1,
        finalized := false } = true := by
    simp [cx_sha3_validate_context, hfam, hsz, hrem]
  rw [cx_sha3_final_ok _ _ hv1 rfl]
  simp [List.drop_replicate]

theorem cx_sha3_final_finalized (ctx : cx_sha3_t) (d : List Nat)
    (hf : ctx.finalized = true) : cx_sha3_final ctx d = (ctx, d) := by
  by_cases hv : cx_sha3_validate_context ctx = true
  · simp [cx_sha3_final, cx_sha3_final_result, hv, hf]
  · have hv' : cx_sha3_validate_context ctx = false := by
      cases hb : cx_sha3_validate_context ctx
      · rfl
      · exact absurd hb hv
    simp [cx_sha3_final, cx_sha3_final_result, hv']

/-! ## The claims -/

/-- C1: for every input and every way of splitting it into a sequence of
chunks, calling update once per chunk on a freshly constructed valid context
and then final produces exactly the same digest as calling update once with
the whole input on an identically configured fresh context and then final. -/
theorem streaming_equivalence (family bits outLen : Nat) (chunks : List (List Nat))
    (digest : List Nat)
    (hv : cx_sha3_validate_context (cx_sha3_init family bits outLen) = true) :
    cx_sha3_final
        (chunks.foldl (fun c d => (cx_sha3_update c d).2) (cx_sha3_init family bits outLen))
        digest =
      cx_sha3_final ((cx_sha3_update (cx_sha3_init family bits outLen) chunks.flatten).2)
        digest := by
  rw [cx_sha3_update_foldl chunks _ hv rfl]

/-- Witness for C1 at a concrete split of [1, 2, 3] into [1] and [2, 3]. -/
theorem streaming_equivalence_witness :
    cx_sha3_validate_context (cx_sha3_init FAMILY_SHA3 256 0) = true ∧
    cx_sha3_final
        ([[1], [2, 3]].foldl (fun c d => (cx_sha3_update c d).2) (cx_sha3_init FAMILY_SHA3 256 0))
        (List.replicate 32 0) =
      cx_sha3_final ((cx_sha3_update (cx_sha3_init FAMILY_SHA3 256 0) [[1], [2, 3]].flatten).2)
        (List.replicate 32 0) :=
  ⟨by decide,
    streaming_equivalence FAMILY_SHA3 256 0 [[1], [2, 3]] (List.replicate 32 0) (by decide)⟩

set_option maxRecDepth 1000000 in
theorem kat_sha3_256_empty :

    (cx_sha3_final ((cx_sha3_update (cx_sha3_init FAMILY_SHA3 256 0) []).2)
        (List.replicate 32 0)).2 =
      [0xa7, 0xff, 0xc6, 0xf8, 0xbf, 0x1e, 0xd7, 0x66, 0x51, 0xc1, 0x47, 0x56, 0xa0, 0x61,
       0xd6, 0x62, 0xf5, 0x80, 0xff, 0x4d, 0xe4, 0x3b, 0x49, 0xfa, 0x82, 0xd8, 0x0a, 0x4b,
       0x80, 0xf8, 0x43, 0x4a] := by
  decide

set_option maxRecDepth 1000000 in
theorem kat_sha3_256_noupdate :
    (cx_sha3_final (cx_sha3_init FAMILY_SHA3 256 0) (List.replicate 32 0)).2 =
      [0xa7, 0xff, 0xc6, 0xf8, 0xbf, 0x1e, 0xd7, 0x66, 0x51, 0xc1, 0x47, 0x56, 0xa0, 0x61,
       0xd6, 0x62, 0xf5, 0x80, 0xff, 0x4d, 0xe4, 0x3b, 0x49, 0xfa, 0x82, 0xd8, 0x0a, 0x4b,
       0x80, 0xf8, 0x43, 0x4a] := by
  decide

set_option maxRecDepth 1000000 in
theorem kat_sha3_224_empty :
    (cx_sha3_final ((cx_sha3_update (cx_sha3_init FAMILY_SHA3 224 0) []).2)
        (List.replicate 28 0)).2 =
      [0x6b, 0x4e, 0x03, 0x42, 0x36, 0x67, 0xdb, 0xb7, 0x3b, 0x6e, 0x15, 0x45, 0x4f, 0x0e,
       0xb1, 0xab, 0xd4, 0x59, 0x7f, 0x9a, 0x1b, 0x07, 0x8e, 0x3f, 0x5b, 0x5a, 0x6b, 0xc7] := by
  decide

set_option maxRecDepth 1000000 in
theorem kat_sha3_384_empty :
    (cx_sha3_final ((cx_sha3_update (cx_sha3_init FAMILY_SHA3 384 0) []).2)
        (List.replicate 48 0)).2 =
      [0x0c, 0x63, 0xa7, 0x5b, 0x84, 0x5e, 0x4f, 0x7d, 0x01, 0x10, 0x7d, 0x85, 0x2e, 0x4c,
       0x24, 0x85, 0xc5, 0x1a, 0x50, 0xaa, 0xaa, 0x94, 0xfc, 0x61, 0x99, 0x5e, 0x71, 0xbb,
       0xee, 0x98, 0x3a, 0x2a, 0xc3, 0x71, 0x38, 0x31, 0x26, 0x4a, 0xdb, 0x47, 0xfb, 0x6b,
       0xd1, 0xe0, 0x58, 0xd5, 0xf0, 0x04] := by
  decide

set_option maxRecDepth 1000000 in
theorem kat_sha3_512_empty :
    (cx_sha3_final ((cx_sha3_update (cx_sha3_init FAMILY_SHA3 512 0) []).2)
        (List.replicate 64 0)).2 =
      [0xa6, 0x9f, 0x73, 0xcc, 0xa2, 0x3a, 0x9a, 0xc5, 0xc8, 0xb5, 0x67, 0xdc, 0x18, 0x5a,
       0x75, 0x6e, 0x97, 0xc9, 0x82, 0x16, 0x4f, 0xe2, 0x58, 0x59, 0xe0, 0xd1, 0xdc, 0xc1,
       0x47, 0x5c, 0x80, 0xa6, 0x15, 0xb2, 0x12, 0x3a, 0xf1, 0xf5, 0xf9, 0x4c, 0x11, 0xe3,
       0xe9, 0x40, 0x2c, 0x3a, 0xc5, 0x58, 0xf5, 0x00, 0x19, 0x9d, 0x95, 0xb6, 0xd3, 0xe3,
       0x01, 0x75, 0x85, 0x86, 0x28, 0x1d, 0xcd, 0x26] := by
  decide

set_option maxRecDepth 1000000 in
theorem kat_shake128_empty :
    (cx_sha3_final ((cx_sha3_update (cx_sha3_init FAMILY_SHAKE 128 32) []).2)
        (List.replicate 32 0)).2 =
      [0x7f, 0x9c, 0x2b, 0xa4, 0xe8, 0x8f, 0x82, 0x7d, 0x61, 0x60, 0x45, 0x50, 0x76, 0x05,
       0x85, 0x3e, 0xd7, 0x3b, 0x80, 0x93, 0xf6, 0xef, 0xbc, 0x88, 0xeb, 0x1a, 0x6e, 0xac,
       0xfa, 0x66, 0xef, 0x26] := by
  decide

set_option maxRecDepth 1000000 in
theorem kat_shake256_empty :
    (cx_sha3_final ((cx_sha3_update (cx_sha3_init FAMILY_SHAKE 256 32) []).2)
        (List.replicate 32 0)).2 =
      [0x46, 0xb9, 0xdd, 0x2b, 0x0b, 0xa8, 0x8d, 0x13, 0x23, 0x3b, 0x3f, 0xeb, 0x74, 0x3e,
       0xeb, 0x24, 0x3f, 0xcd, 0x52, 0xea, 0x62, 0xb8, 0x1b, 0x82, 0xb5, 0x0c, 0x27, 0x64,
       0x6e, 0xd5, 0x76, 0x2f] := by
  decide

set_option maxRecDepth 1000000 in
theorem kat_sha3_256_abc :
    (cx_sha3_final ((cx_sha3_update (cx_sha3_init FAMILY_SHA3 256 0) [97, 98, 99]).2)
        (List.replicate 32 0)).2 =
      [0x3a, 0x98, 0x5d, 0xa7, 0x4f, 0xe2, 0x25, 0xb2, 0x04, 0x5c, 0x17, 0x2d, 0x6b, 0xd3,
       0x90, 0xbd, 0x85, 0x5f, 0x08, 0x6e, 0x3e, 0x9d, 0x52, 0x5b, 0x46, 0xbf, 0xe2, 0x45,
       0x11, 0x43, 0x15, 0x32] := by
  decide

set_option maxRecDepth 1000000 in
theorem kat_shake128_abc :
    (cx_sha3_final ((cx_sha3_update (cx_sha3_init FAMILY_SHAKE 128 16) [97, 98, 99]).2)
        (List.replicate 16 0)).2 =
      [0x58, 0x81, 0x09, 0x2d, 0xd8, 0x18, 0xbf, 0x5c, 0xf8, 0xa3, 0xdd, 0xb7, 0x93, 0xfb,
       0xcb, 0xa7] := by
  decide

/-- C2: on a freshly constructed context, update with the empty string (or no
update at all) followed by final yields exactly the NIST standard
empty-string digest, for SHA3-224/256/384/512 and SHAKE128/256; the analogous
known-answer equalities hold on the short input "abc". -/
theorem known_answer_vectors :
    (cx_sha3_final ((cx_sha3_update (cx_sha3_init FAMILY_SHA3 256 0) []).2)
        (List.replicate 32 0)).2 =
      [0xa7, 0xff, 0xc6, 0xf8, 0xbf, 0x1e, 0xd7, 0x66, 0x51, 0xc1, 0x47, 0x56, 0xa0, 0x61,
       0xd6, 0x62, 0xf5, 0x80, 0xff, 0x4d, 0xe4, 0x3b, 0x49, 0xfa, 0x82, 0xd8, 0x0a, 0x4b,
       0x80, 0xf8, 0x43, 0x4a] ∧
    (cx_sha3_final (cx_sha3_init FAMILY_SHA3 256 0) (List.replicate 32 0)).2 =
      [0xa7, 0xff, 0xc6, 0xf8, 0xbf, 0x1e, 0xd7, 0x66, 0x51, 0xc1, 0x47, 0x56, 0xa0, 0x61,
       0xd6, 0x62, 0xf5, 0x80, 0xff, 0x4d, 0xe4, 0x3b, 0x49, 0xfa, 0x82, 0xd8, 0x0a, 0x4b,
       0x80, 0xf8, 0x43, 0x4a] ∧
    (cx_sha3_final ((cx_sha3_update (cx_sha3_init FAMILY_SHA3 224 0) []).2)
        (List.replicate 28 0)).2 =
      [0x6b, 0x4e, 0x03, 0x42, 0x36, 0x67, 0xdb, 0xb7, 0x3b, 0x6e, 0x15, 0x45, 0x4f, 0x0e,
       0xb1, 0xab, 0xd4, 0x59, 0x7f, 0x9a, 0x1b, 0x07, 0x8e, 0x3f, 0x5b, 0x5a, 0x6b, 0xc7] ∧
    (cx_sha3_final ((cx_sha3_update (cx_sha3_init FAMILY_SHA3 384 0) []).2)
        (List.replicate 48 0)).2 =
      [0x0c, 0x63, 0xa7, 0x5b, 0x84, 0x5e, 0x4f, 0x7d, 0x01, 0x10, 0x7d, 0x85, 0x2e, 0x4c,
       0x24, 0x85, 0xc5, 0x1a, 0x50, 0xaa, 0xaa, 0x94, 0xfc, 0x61, 0x99, 0x5e, 0x71, 0xbb,
       0xee, 0x98, 0x3a, 0x2a, 0xc3, 0x71, 0x38, 0x31, 0x26, 0x4a, 0xdb, 0x47, 0xfb, 0x6b,
       0xd1, 0xe0, 0x58, 0xd5, 0xf0, 0x04] ∧
    (cx_sha3_final ((cx_sha3_update (cx_sha3_init FAMILY_SHA3 512 0) []).2)
        (List.replicate 64 0)).2 =
      [0xa6, 0x9f, 0x73, 0xcc, 0xa2, 0x3a, 0x9a, 0xc5, 0xc8, 0xb5, 0x67, 0xdc, 0x18, 0x5a,
       0x75, 0x6e, 0x97, 0xc9, 0x82, 0x16, 0x4f, 0xe2, 0x58, 0x59, 0xe0, 0xd1, 0xdc, 0xc1,
       0x47, 0x5c, 0x80, 0xa6, 0x15, 0xb2, 0x12, 0x3a, 0xf1, 0xf5, 0xf9, 0x4c, 0x11, 0xe3,
       0xe9, 0x40, 0x2c, 0x3a, 0xc5, 0x58, 0xf5, 0x00, 0x19, 0x9d, 0x95, 0xb6, 0xd3, 0xe3,
       0x01, 0x75, 0x85, 0x86, 0x28, 0x1d, 0xcd, 0x26] ∧
    (cx_sha3_final ((cx_sha3_update (cx_sha3_init FAMILY_SHAKE 128 32) []).2)
        (List.replicate 32 0)).2 =
      [0x7f, 0x9c, 0x2b, 0xa4, 0xe8, 0x8f, 0x82, 0x7d, 0x61, 0x60, 0x45, 0x50, 0x76, 0x05,
       0x85, 0x3e, 0xd7, 0x3b, 0x80, 0x93, 0xf6, 0xef, 0xbc, 0x88, 0xeb, 0x1a, 0x6e, 0xac,
       0xfa, 0x66, 0xef, 0x26] ∧
    (cx_sha3_final ((cx_sha3_update (cx_sha3_init FAMILY_SHAKE 256 32) []).2)
        (List.replicate 32 0)).2 =
      [0x46, 0xb9, 0xdd, 0x2b, 0x0b, 0xa8, 0x8d, 0x13, 0x23, 0x3b, 0x3f, 0xeb, 0x74, 0x3e,
       0xeb, 0x24, 0x3f, 0xcd, 0x52, 0xea, 0x62, 0xb8, 0x1b, 0x82, 0xb5, 0x0c, 0x27, 0x64,
       0x6e, 0xd5, 0x76, 0x2f] ∧
    (cx_sha3_final ((cx_sha3_update (cx_sha3_init FAMILY_SHA3 256 0) [97, 98, 99]).2)
        (List.replicate 32 0)).2 =
      [0x3a, 0x98, 0x5d, 0xa7, 0x4f, 0xe2, 0x25, 0xb2, 0x04, 0x5c, 0x17, 0x2d, 0x6b, 0xd3,
       0x90, 0xbd, 0x85, 0x5f, 0x08, 0x6e, 0x3e, 0x9d, 0x52, 0x5b, 0x46, 0xbf, 0xe2, 0x45,
       0x11, 0x43, 0x15, 0x32] ∧
    (cx_sha3_final ((cx_sha3_update (cx_sha3_init FAMILY_SHAKE 128 16) [97, 98, 99]).2)
        (List.replicate 16 0)).2 =
      [0x58, 0x81, 0x09, 0x2d, 0xd8, 0x18, 0xbf, 0x5c, 0xf8, 0xa3, 0xdd, 0xb7, 0x93, 0xfb,
       0xcb, 0xa7] :=
  ⟨kat_sha3_256_empty, kat_sha3_256_noupdate, kat_sha3_224_empty, kat_sha3_384_empty, kat_sha3_512_empty, kat_shake128_empty, kat_shake256_empty, kat_sha3_256_abc, kat_shake128_abc⟩

set_option maxRecDepth 1000000 in
/-- Counterexample for C3: the header declares `cx_sha3_final` with a `void`
return type, not `cx_err_t`, so a second call to final on an
already-finalized context cannot return the InvalidState error to the
caller: concretely, on the context produced by finalizing a fresh SHA3-256
context, a second final call returns nothing and leaves the context and the
digest buffer unchanged. -/
theorem final_error_channel_counterexample :
    cx_sha3_final_decl.ret = CType.void ∧
    cx_sha3_final_decl.ret ≠ CType.cxErr ∧
    cx_sha3_final (cx_sha3_final (cx_sha3_init FAMILY_SHA3 256 0) (List.replicate 32 0)).1
        (List.replicate 32 0) =
      ((cx_sha3_final (cx_sha3_init FAMILY_SHA3 256 0) (List.replicate 32 0)).1,
        List.replicate 32 0) := by
  refine ⟨rfl, by decide, ?_⟩
  apply cx_sha3_final_finalized
  rw [cx_sha3_final_ok _ _ (by decide) rfl]

/-- C3 (amended): calling update after final returns InvalidState; a second
final call fails internally with InvalidState but — its declared return type
being void — reports no error value and leaves the context and digest buffer
unchanged; on a context whose rateBytes field is inconsistent with its
declared family and size, validate_context returns false, update returns
InvalidContext, and final fails internally with InvalidContext, again
changing nothing. -/
theorem state_machine_enforcement (ctx : cx_sha3_t) (data digest : List Nat) :
    (cx_sha3_validate_context ctx = true → ctx.finalized = true →
      cx_sha3_update ctx data = (cx_err_t.CX_INVALID_STATE, ctx) ∧
      cx_sha3_final_result ctx digest = Except.error cx_err_t.CX_INVALID_STATE ∧
      cx_sha3_final ctx digest = (ctx, digest)) ∧
    (ctx.rateBytes ≠ rateFor ctx.digestLengthBits →
      cx_sha3_validate_context ctx = false ∧
      cx_sha3_update ctx data = (cx_err_t.CX_INVALID_CONTEXT, ctx) ∧
      cx_sha3_final_result ctx digest = Except.error cx_err_t.CX_INVALID_CONTEXT ∧
      cx_sha3_final ctx digest = (ctx, digest)) := by
  constructor
  · intro hv hf
    refine ⟨?_, ?_, ?_⟩ <;> simp [cx_sha3_update, cx_sha3_final, cx_sha3_final_result, hv, hf]
  · intro hr
    have hv : cx_sha3_validate_context ctx = false := by
      simp [cx_sha3_validate_context, beq_eq_false_iff_ne.mpr hr]
    refine ⟨hv, ?_, ?_, ?_⟩ <;>
      simp [cx_sha3_update, cx_sha3_final, cx_sha3_final_result, hv]

/-- Witness for C3 (amended): a finalized valid SHA3-256 context rejects
update with InvalidState, and a context with rateBytes tampered to 135 fails
validation. -/
theorem state_machine_enforcement_witness :
    cx_sha3_update { cx_sha3_init FAMILY_SHA3 256 0 with finalized := true } [1] =
      (cx_err_t.CX_INVALID_STATE, { cx_sha3_init FAMILY_SHA3 256 0 with finalized := true }) ∧
    cx_sha3_validate_context { cx_sha3_init FAMILY_SHA3 256 0 with rateBytes := 135 } = false :=
  ⟨((state_machine_enforcement { cx_sha3_init FAMILY_SHA3 256 0 with finalized := true }
      [1] []).1 (by decide) (by decide)).1,
    ((state_machine_enforcement { cx_sha3_init FAMILY_SHA3 256 0 with rateBytes := 135 }
      [1] []).2 (by decide)).1⟩

/-- C4: validate_context returns true exactly when the context's family,
size and stored rate form one of the legal table combinations (the family is
a recognized enum value, the size is legal for it, and the stored rate
equals the recomputed rate) and the partial block length is below the rate;
on any mismatch it returns false, not an error, and being a pure boolean
predicate over an unmutated context it has no side effect. -/
theorem validate_context_spec (ctx : cx_sha3_t) :
    (cx_sha3_validate_context ctx = true ↔ spec_context_ok ctx) ∧
    (cx_sha3_validate_context ctx = false ↔ ¬ spec_context_ok ctx) := by
  constructor
  · exact validate_iff_table ctx
  · rw [← validate_iff_table ctx]
    cases h : cx_sha3_validate_context ctx <;> simp

/-- C5: shake_validate_context performs the same checks as validate_context
plus the requirement that the family is SHAKE; every context valid as
fixed-digest SHA3 passes validate_context but fails shake_validate_context. -/
theorem shake_validate_spec (ctx : cx_sha3_t) :
    (cx_shake_validate_context ctx = true ↔
      cx_sha3_validate_context ctx = true ∧ ctx.algorithmFamily = FAMILY_SHAKE) ∧
    (cx_sha3_validate_context ctx = true → ctx.algorithmFamily = FAMILY_SHA3 →
      cx_shake_validate_context ctx = false) := by
  constructor
  · simp [cx_shake_validate_context, Bool.and_eq_true, beq_iff_eq]
  · intro hv hf
    simp [cx_shake_validate_context, hv, hf, FAMILY_SHA3, FAMILY_SHAKE]

/-- Witness for C5: the fresh SHA3-256 context is valid for validate_context
yet rejected by shake_validate_context. -/
theorem shake_validate_spec_witness :
    cx_shake_validate_context (cx_sha3_init FAMILY_SHA3 256 0) = false :=
  (shake_validate_spec (cx_sha3_init FAMILY_SHA3 256 0)).2 (by decide) (by decide)

/-- C6: on every valid context, get_output_size returns digestLengthBits / 8
for fixed-digest SHA3 — in particular 32 for SHA3-256 and 64 for SHA3-512 —
and the caller-configured output length for SHAKE; taking the context by
value (const in the header), it mutates nothing. -/
theorem get_output_size_spec (ctx : cx_sha3_t)
    (hv : cx_sha3_validate_context ctx = true) :
    (ctx.algorithmFamily = FAMILY_SHA3 →
      cx_sha3_get_output_size ctx = ctx.digestLengthBits / 8) ∧
    (ctx.algorithmFamily = FAMILY_SHAKE →
      cx_sha3_get_output_size ctx = ctx.outputLengthBytes) ∧
    (ctx.algorithmFamily = FAMILY_SHA3 → ctx.digestLengthBits = 256 →
      cx_sha3_get_output_size ctx = 32) ∧
    (ctx.algorithmFamily = FAMILY_SHA3 → ctx.digestLengthBits = 512 →
      cx_sha3_get_output_size ctx = 64) := by
  have hsha : ctx.algorithmFamily = FAMILY_SHA3 →
      (ctx.algorithmFamily == FAMILY_SHAKE) = false := by
    intro h
    rw [h]
    rfl
  refine ⟨?_, ?_, ?_, ?_⟩
  · intro h1
    simp [cx_sha3_get_output_size, hv, hsha h1]
  · intro h1
    simp [cx_sha3_get_output_size, hv, h1]
  · intro h1 h2
    simp [cx_sha3_get_output_size, hv, hsha h1, h2]
  · intro h1 h2
    simp [cx_sha3_get_output_size, hv, hsha h1, h2]

/-- Witness for C6: the fresh SHA3-256 context reports 32 output bytes. -/
theorem get_output_size_spec_witness :
    cx_sha3_get_output_size (cx_sha3_init FAMILY_SHA3 256 0) = 32 :=
  (get_output_size_spec (cx_sha3_init FAMILY_SHA3 256 0) (by decide)).2.2.1
    (by decide) (by decide)

/-- C7: whenever update fails with any error it returns the context
unchanged (in particular the finalized flag keeps its value, and update
never touches a digest buffer), and whenever the internal finalize
computation fails with any error, final leaves both the context and the
caller-supplied digest buffer byte-for-byte unchanged: no failure path
substitutes a partial result. -/
theorem error_atomicity (ctx : cx_sha3_t) (data digest : List Nat) :
    ((cx_sha3_update ctx data).1 ≠ cx_err_t.CX_OK → (cx_sha3_update ctx data).2 = ctx) ∧
    (∀ e, cx_sha3_final_result ctx digest = Except.error e →
      cx_sha3_final ctx digest = (ctx, digest)) := by
  constructor
  · intro h
    by_cases hv : cx_sha3_validate_context ctx = true
    · by_cases hf : ctx.finalized = true
      · simp [cx_sha3_update, hv, hf]
      · exfalso
        apply h
        have hf' : ctx.finalized = false := by
          cases hb : ctx.finalized
          · rfl
          · exact absurd hb hf
        simp [cx_sha3_update, hv, hf']
    · have hv' : cx_sha3_validate_context ctx = false := by
        cases hb : cx_sha3_validate_context ctx
        · rfl
        · exact absurd hb hv
      simp [cx_sha3_update, hv']
  · intro e h
    simp [cx_sha3_final, h]

/-- Witness for C7: update on a context with a tampered rate fails and hands
back the context unchanged. -/
theorem error_atomicity_witness :
    (cx_sha3_update { cx_sha3_init FAMILY_SHA3 256 0 with rateBytes := 135 } [1]).2 =
      { cx_sha3_init FAMILY_SHA3 256 0 with rateBytes := 135 } :=
  (error_atomicity { cx_sha3_init FAMILY_SHA3 256 0 with rateBytes := 135 } [1] []).1
    (by decide)

/-- C8: every operation preserves the context invariants: if a context
passes validation then it still does after update and after final (whatever
they return), its rate is one of the five legal values 72/104/136/144/168,
the rate is the one determined by the family and size, and the partial block
is shorter than the rate; the validators and get_output_size take the
context as a const pointer and cannot change it at all. -/
theorem operations_preserve_invariants (ctx : cx_sha3_t) (data digest : List Nat)
    (hv : cx_sha3_validate_context ctx = true) :
    cx_sha3_validate_context (cx_sha3_update ctx data).2 = true ∧
    cx_sha3_validate_context (cx_sha3_final ctx digest).1 = true ∧
    ctx.rateBytes ∈ [72, 104, 136, 144, 168] ∧
    ctx.rateBytes = rateFor ctx.digestLengthBits ∧
    ctx.partialBlock.length < ctx.rateBytes := by
  obtain ⟨h1, h2, h3, h4⟩ := validate_fields ctx hv
  refine ⟨?_, ?_, ?_, h3, h4⟩
  · by_cases hf : ctx.finalized = true
    · simp [cx_sha3_update, hv, hf]
    · have hf' : ctx.finalized = false := by
        cases hb : ctx.finalized
        · rfl
        · exact absurd hb hf
      exact (cx_sha3_update_preserves ctx data hv hf').1
  · by_cases hf : ctx.finalized = true
    · simp [cx_sha3_final, cx_sha3_final_result, hv, hf]
    · have hf' : ctx.finalized = false := by
        cases hb : ctx.finalized
        · rfl
        · exact absurd hb hf
      rw [cx_sha3_final_ok ctx digest hv hf']
      rw [validate_set_final]
      have hpos : 0 < rateFor ctx.digestLengthBits :=
        h3 ▸ Nat.lt_of_le_of_lt (Nat.zero_le _) h4
      simp [h1, h2, h3, hpos]
  · exact table_rate_mem _ _ _ ((validate_iff_table ctx).mp hv).1

/-- Witness for C8 on a fresh SHA3-256 context with a one-byte update and a
32-byte digest buffer. -/
theorem operations_preserve_invariants_witness :
    cx_sha3_validate_context
        (cx_sha3_update (cx_sha3_init FAMILY_SHA3 256 0) [1]).2 = true ∧
    (cx_sha3_init FAMILY_SHA3 256 0).rateBytes ∈ [72, 104, 136, 144, 168] :=
  ⟨(operations_preserve_invariants (cx_sha3_init FAMILY_SHA3 256 0) [1]
      (List.replicate 32 0) (by decide)).1,
    (operations_preserve_invariants (cx_sha3_init FAMILY_SHA3 256 0) [1]
      (List.replicate 32 0) (by decide)).2.2.1⟩

/-- C9: for a fixed input and SHAKE output lengths N ≤ M, the first N bytes
of the digest produced with configured output length M equal the whole
digest produced with configured output length N, for both SHAKE128 and
SHAKE256. -/
theorem shake_extendability (bits N M : Nat) (data : List Nat)
    (hb : bits = 128 ∨ bits = 256) (hnm : N ≤ M) :
    ((cx_sha3_final ((cx_sha3_update (cx_sha3_init FAMILY_SHAKE bits M) data).2)
        (List.replicate M 0)).2).take N =
      (cx_sha3_final ((cx_sha3_update (cx_sha3_init FAMILY_SHAKE bits N) data).2)
        (List.replicate N 0)).2 := by
  have hpos : 0 < rateFor bits := by rcases hb with rfl | rfl <;> decide
  have h200 : rateFor bits ≤ 200 := by rcases hb with rfl | rfl <;> decide
  have hsz : sizeLegal FAMILY_SHAKE bits = true := by rcases hb with rfl | rfl <;> decide
  rw [shake_digest_eq bits M data hpos hsz, shake_digest_eq bits N data hpos hsz]
  exact squeeze_take (rateFor bits) hpos h200 (M + 1) _ N M (N + 1) hnm (le_refl _) (le_refl _)

set_option maxRecDepth 1000000 in
/-- Witness for C9: SHAKE128 on "abc" with output lengths 16 and 48. -/
theorem shake_extendability_witness :
    ((128 : Nat) = 128 ∨ (128 : Nat) = 256) ∧ (16 : Nat) ≤ 48 ∧
    ((cx_sha3_final ((cx_sha3_update (cx_sha3_init FAMILY_SHAKE 128 48) [97, 98, 99]).2)
        (List.replicate 48 0)).2).take 16 =
      (cx_sha3_final ((cx_sha3_update (cx_sha3_init FAMILY_SHAKE 128 16) [97, 98, 99]).2)
        (List.replicate 16 0)).2 :=
  ⟨Or.inl rfl, by decide,
    shake_extendability 128 16 48 [97, 98, 99] (Or.inl rfl) (by decide)⟩

/-- C10: the header gives `cx_sha3_final` the return type void — no error
return channel — while `cx_sha3_update` returns `cx_err_t`, so no call to
final can report InvalidState or InvalidContext to the caller through a
result value. -/
theorem final_void_interface :
    cx_sha3_final_decl.ret = CType.void ∧
    cx_sha3_update_decl.ret = CType.cxErr ∧
    CType.void ≠ CType.cxErr := by
  refine ⟨rfl, rfl, ?_⟩
  decide
